import Mathlib

/-!
Verification of the pg_retry retry execution engine.

This file is a shallow embedding of the two C source variants of the
extension (src/pg_retry.c, called v1 below, and src/src/pg_retry.c,
called v2 below) together with theorems settling the specification
claims about them.

Modelling conventions:
* SQL statement text is abstracted by the result of the host parser
  (pg_parse_query): a statement value carries the number of parsed
  statements and whether the single statement is a TransactionStmt.
* The statement executor (SPI_execute inside the subtransaction) is an
  external collaborator; one invocation of the engine is parameterised
  by a map from the 1-based attempt number to that attempt's outcome.
* The PRNG draw used by the jitter (rand()/RAND_MAX in v1,
  pg_prng_double in v2) is modelled by a per-attempt rational u with
  0 <= u <= 1; doubles are modelled by exact rationals and the C (long)
  cast by truncation toward zero.
* Machine integers are modelled by Int (no overflow is reachable for
  the validated ranges the claims quantify over).
-/

/-- An execution error captured from a failed attempt: the SQLSTATE
    (none models sqlerrcode = 0, i.e. no structured code) and the
    message text. -/
structure ExecError where
  code : Option String
  message : String
deriving DecidableEq, Repr

/-- The outcome of one attempt of SPI_execute inside its
    subtransaction: a processed-rows count or a caught error. -/
inductive AttemptResult where
  | ok (rows : Int)
  | err (e : ExecError)
deriving DecidableEq, Repr

/-- The host parser's view of the submitted SQL text: how many raw
    statements pg_parse_query returns, and whether the single parsed
    statement is a transaction-control statement (TransactionStmt). -/
structure Stmt where
  nStatements : Nat
  isTransactionControl : Bool
deriving DecidableEq, Repr

/-- One WARNING emitted by the retry loop: attempt index, max_tries,
    the SQLSTATE string and the error message. -/
structure Warning where
  attempt : Int
  maxTries : Int
  sqlstate : String
  message : String
deriving DecidableEq, Repr

/-- The errors the engine itself can surface to the caller. -/
inductive RunError where
  | nullInput
  | invalidParameter
  | syntaxError
  | unsupportedStatement
  | execError (e : ExecError)
  | internalError
deriving DecidableEq, Repr

/-- The value returned to the caller: a row count or a propagated
    error. -/
inductive RunResult where
  | ok (rows : Int)
  | err (e : RunError)
deriving DecidableEq, Repr

/-- The observable behaviour of one invocation: how many attempts ran,
    the warnings emitted, the backoff sleeps performed (in ms, in
    order), and the final result. -/
@[ext] structure RunTrace where
  attempts : Int
  warnings : List Warning
  sleeps : List Int
  result : RunResult
deriving DecidableEq, Repr

/-- Embedding of is_retryable_sqlstate: walk the (possibly
    null-containing) array of retryable SQLSTATE strings and return
    true on the first exact strcmp match. -/
def is_retryable_sqlstate (sqlstate : String) : List (Option String) → Bool
  | [] => false
  | none :: rest => is_retryable_sqlstate sqlstate rest
  | some elem :: rest =>
    if sqlstate = elem then true else is_retryable_sqlstate sqlstate rest

/-- Embedding of contains_transaction_control: false unless the parse
    list has exactly one element, in which case test whether it is a
    TransactionStmt. -/
def contains_transaction_control (stmt : Stmt) : Bool :=
  if stmt.nStatements ≠ 1 then false else stmt.isTransactionControl

/-- Embedding of is_single_statement: the parse of the SQL yields
    exactly one raw statement. -/
def is_single_statement (stmt : Stmt) : Bool :=
  stmt.nStatements == 1

/-- Embedding of validate_sql: reject multi-statement input with a
    syntax error, then transaction control with feature-not-supported;
    none means validation passed. -/
def validate_sql (stmt : Stmt) : Option RunError :=
  if ¬ is_single_statement stmt then some .syntaxError
  else if contains_transaction_control stmt then some .unsupportedStatement
  else none

/-- C truncation toward zero of a rational, as performed by the
    (long) cast in calculate_delay. -/
def ctrunc (q : ℚ) : Int :=
  if q < 0 then Int.ceil q else Int.floor q

/-- Embedding of calculate_delay (identical in both variants up to the
    PRNG source): exponential base value base*2^(attempt-1), capped at
    max_delay_ms, plus a jitter of (u*0.4 - 0.2) times the capped
    value where u in [0,1] is the uniform draw, truncated by the
    (long) cast and floored at 1 ms. -/
def calculate_delay (attempt base_delay_ms max_delay_ms : Int) (u : ℚ) : Int :=
  let delay : ℚ := (base_delay_ms : ℚ) * (2 : ℚ) ^ (attempt - 1)
  let capped : ℚ := min delay (max_delay_ms : ℚ)
  let jitter : ℚ := u * capped * (2 / 5) - capped * (1 / 5)
  let jittered : ℚ := capped + jitter
  max 1 (ctrunc jittered)

/-- Classification of a caught error, as done at the top of the
    PG_CATCH block: an error with sqlerrcode = 0 is never retryable;
    otherwise membership of its SQLSTATE in the retryable set decides. -/
def error_is_retryable (states : List (Option String)) (e : ExecError) : Bool :=
  match e.code with
  | none => false
  | some sqlstate => is_retryable_sqlstate sqlstate states

/-- The classification step of the PG_CATCH block: decides should_retry
    and produces the WARNING (emitted exactly when the error carries a
    code that is in the retryable set). -/
def classify (states : List (Option String)) (max_tries attempt : Int)
    (e : ExecError) : Bool × List Warning :=
  match e.code with
  | none => (false, [])
  | some sqlstate =>
    if is_retryable_sqlstate sqlstate states then
      (true, [⟨attempt, max_tries, sqlstate, e.message⟩])
    else
      (false, [])

/-- Outcome of the v1 retry loop (src/pg_retry.c): either success was
    recorded and the loop broke out, or the for-loop condition failed
    with last_error holding whatever was last saved. -/
inductive LoopOutV1 where
  | success (rows : Int)
  | exhausted (last : Option ExecError)
deriving DecidableEq

/-- Trace of the v1 retry loop. -/
structure LoopTraceV1 where
  attempts : Int
  warnings : List Warning
  sleeps : List Int
  outcome : LoopOutV1
deriving DecidableEq

/-- Outcome of the v2 retry loop (src/src/pg_retry.c): success, an
    immediate ReThrowError from the PG_CATCH block, or the defensive
    fall-through when the loop exits with neither. -/
inductive LoopOutV2 where
  | success (rows : Int)
  | thrown (e : ExecError)
  | fellThrough
deriving DecidableEq

/-- Trace of the v2 retry loop. -/
structure LoopTraceV2 where
  attempts : Int
  warnings : List Warning
  sleeps : List Int
  outcome : LoopOutV2
deriving DecidableEq

/-- Embedding of the v1 (src/pg_retry.c) retry loop, from the given
    1-based attempt number. fuel counts the iterations the for-loop
    condition (attempt <= max_tries) still allows, so the top-level
    call uses fuel = max_tries.toNat and attempt = 1; last is the
    last_error cell. On failure the error is classified; a retryable
    failure is warned about; then, if it is non-retryable or the
    attempts are exhausted, the error is saved in last_error and the
    loop moves on, else the loop sleeps the computed backoff delay and
    retries. -/
def loop_v1 (states : List (Option String)) (base_delay_ms max_delay_ms max_tries : Int)
    (exec : Int → AttemptResult) (jit : Int → ℚ) :
    Nat → Int → Option ExecError → LoopTraceV1
  | 0, attempt, last => ⟨attempt - 1, [], [], .exhausted last⟩
  | fuel + 1, attempt, last =>
    match exec attempt with
    | .ok rows => ⟨attempt, [], [], .success rows⟩
    | .err e =>
      let cls := classify states max_tries attempt e
      if cls.1 = false ∨ attempt = max_tries then
        let t := loop_v1 states base_delay_ms max_delay_ms max_tries exec jit
          fuel (attempt + 1) (some e)
        ⟨t.attempts, cls.2 ++ t.warnings, t.sleeps, t.outcome⟩
      else
        let sl : List Int :=
          if attempt < max_tries then
            [calculate_delay attempt base_delay_ms max_delay_ms (jit attempt)]
          else []
        let t := loop_v1 states base_delay_ms max_delay_ms max_tries exec jit
          fuel (attempt + 1) last
        ⟨t.attempts, cls.2 ++ t.warnings, sl ++ t.sleeps, t.outcome⟩

/-- Embedding of the v2 (src/src/pg_retry.c) retry loop, from the
    given 1-based attempt number with fuel as in loop_v1. The
    difference from v1: a non-retryable or exhausting failure is
    rethrown from inside the PG_CATCH block, ending the loop at once. -/
def loop_v2 (states : List (Option String)) (base_delay_ms max_delay_ms max_tries : Int)
    (exec : Int → AttemptResult) (jit : Int → ℚ) :
    Nat → Int → LoopTraceV2
  | 0, attempt => ⟨attempt - 1, [], [], .fellThrough⟩
  | fuel + 1, attempt =>
    match exec attempt with
    | .ok rows => ⟨attempt, [], [], .success rows⟩
    | .err e =>
      let cls := classify states max_tries attempt e
      if cls.1 = false ∨ attempt = max_tries then
        ⟨attempt, cls.2, [], .thrown e⟩
      else
        let sl : List Int :=
          if attempt < max_tries then
            [calculate_delay attempt base_delay_ms max_delay_ms (jit attempt)]
          else []
        let t := loop_v2 states base_delay_ms max_delay_ms max_tries exec jit
          fuel (attempt + 1)
        ⟨t.attempts, cls.2 ++ t.warnings, sl ++ t.sleeps, t.outcome⟩

/-- Process-wide configuration (the GUC variables with their _PG_init
    defaults; the comma-separated SQLSTATE list is modelled already
    parsed into its entries). -/
structure Config where
  default_max_tries : Int
  default_base_delay_ms : Int
  default_max_delay_ms : Int
  default_sqlstates : List (Option String)
deriving DecidableEq

/-- The configuration registered by _PG_init. -/
def defaultConfig : Config :=
  ⟨3, 50, 1000, [some "40001", some "40P01", some "55P03", some "57014"]⟩

/-- The caller's arguments: the parsed view of the SQL text (none
    models a null sql argument) and the optional max_tries,
    base_delay_ms, max_delay_ms and retry_sqlstates arguments (none
    models SQL NULL, in which case the configured default is used). -/
structure Args where
  sql : Option Stmt
  max_tries : Option Int
  base_delay_ms : Option Int
  max_delay_ms : Option Int
  retry_sqlstates : Option (List (Option String))
deriving DecidableEq

/-- The max_tries value after merging with the configured default. -/
def resolved_max_tries (cfg : Config) (args : Args) : Int :=
  args.max_tries.getD cfg.default_max_tries

/-- The base_delay_ms value after merging with the configured default. -/
def resolved_base_delay (cfg : Config) (args : Args) : Int :=
  args.base_delay_ms.getD cfg.default_base_delay_ms

/-- The max_delay_ms value after merging with the configured default. -/
def resolved_max_delay (cfg : Config) (args : Args) : Int :=
  args.max_delay_ms.getD cfg.default_max_delay_ms

/-- The retryable-SQLSTATE set after merging with the configured
    default. -/
def resolved_sqlstates (cfg : Config) (args : Args) : List (Option String) :=
  args.retry_sqlstates.getD cfg.default_sqlstates

/-- Map the v1 loop trace to the invocation's observable trace, as the
    code after the loop does: success returns the processed row count;
    otherwise a saved last_error is rethrown, and if none exists the
    defensive internal error (all retry attempts failed) is raised. -/
def finish_v1 (t : LoopTraceV1) : RunTrace :=
  ⟨t.attempts, t.warnings, t.sleeps,
    match t.outcome with
    | .success rows => .ok rows
    | .exhausted (some e) => .err (.execError e)
    | .exhausted none => .err .internalError⟩

/-- Map the v2 loop trace to the invocation's observable trace:
    success returns the row count, a rethrown error propagates, and
    the defensive fall-through raises the internal unexpected error
    state. -/
def finish_v2 (t : LoopTraceV2) : RunTrace :=
  ⟨t.attempts, t.warnings, t.sleeps,
    match t.outcome with
    | .success rows => .ok rows
    | .thrown e => .err (.execError e)
    | .fellThrough => .err .internalError⟩

/-- Embedding of pg_retry_retry from src/pg_retry.c (v1): null check
    on sql, argument defaulting, parameter validation, validate_sql,
    then the retry loop and the final success/rethrow handling. -/
def pg_retry_retry_v1 (cfg : Config) (args : Args) (exec : Int → AttemptResult)
    (jit : Int → ℚ) : RunTrace :=
  match args.sql with
  | none => ⟨0, [], [], .err .nullInput⟩
  | some stmt =>
    let max_tries := resolved_max_tries cfg args
    let base_delay_ms := resolved_base_delay cfg args
    let max_delay_ms := resolved_max_delay cfg args
    let states := resolved_sqlstates cfg args
    if max_tries < 1 then ⟨0, [], [], .err .invalidParameter⟩
    else if base_delay_ms < 0 ∨ max_delay_ms < 0 then ⟨0, [], [], .err .invalidParameter⟩
    else if base_delay_ms > max_delay_ms then ⟨0, [], [], .err .invalidParameter⟩
    else
      match validate_sql stmt with
      | some verr => ⟨0, [], [], .err verr⟩
      | none =>
        finish_v1 (loop_v1 states base_delay_ms max_delay_ms max_tries exec jit
          max_tries.toNat 1 none)

/-- Embedding of pg_retry_retry from src/src/pg_retry.c (v2): the same
    validation pipeline, then the v2 retry loop whose failures are
    rethrown inside the catch handler. -/
def pg_retry_retry_v2 (cfg : Config) (args : Args) (exec : Int → AttemptResult)
    (jit : Int → ℚ) : RunTrace :=
  match args.sql with
  | none => ⟨0, [], [], .err .nullInput⟩
  | some stmt =>
    let max_tries := resolved_max_tries cfg args
    let base_delay_ms := resolved_base_delay cfg args
    let max_delay_ms := resolved_max_delay cfg args
    let states := resolved_sqlstates cfg args
    if max_tries < 1 then ⟨0, [], [], .err .invalidParameter⟩
    else if base_delay_ms < 0 ∨ max_delay_ms < 0 then ⟨0, [], [], .err .invalidParameter⟩
    else if base_delay_ms > max_delay_ms then ⟨0, [], [], .err .invalidParameter⟩
    else
      match validate_sql stmt with
      | some verr => ⟨0, [], [], .err verr⟩
      | none =>
        finish_v2 (loop_v2 states base_delay_ms max_delay_ms max_tries exec jit
          max_tries.toNat 1)

/-- A validated single non-transaction-control statement, as the host
    parser reports it for, e.g., UPDATE t SET x=1. -/
def okStmt : Stmt := ⟨1, false⟩

/-- Arguments: the ok statement, max_tries 1, base 50ms, max 1000ms,
    default retryable set. -/
def args_mt1 : Args := ⟨some okStmt, some 1, some 50, some 1000, none⟩

/-- Arguments: the ok statement, max_tries 2, base 50ms, max 1000ms,
    default retryable set. -/
def args_mt2 : Args := ⟨some okStmt, some 2, some 50, some 1000, none⟩

/-- Arguments: the ok statement, max_tries 3, base 50ms, max 1000ms,
    default retryable set. -/
def args_mt3 : Args := ⟨some okStmt, some 3, some 50, some 1000, none⟩

/-- Arguments: the ok statement, max_tries 5, base 50ms, max 1000ms,
    default retryable set. -/
def args_mt5 : Args := ⟨some okStmt, some 5, some 50, some 1000, none⟩

/-- An executor whose every attempt fails with the retryable SQLSTATE
    40001. -/
def exec_all_40001 : Int → AttemptResult :=
  fun _ => .err ⟨some "40001", "could not serialize access"⟩

/-- An executor whose every attempt fails with SQLSTATE 40001, with
    per-attempt messages distinguishing attempt 1 from the rest. -/
def exec_40001_msgs (m1 m2 : String) : Int → AttemptResult :=
  fun n => .err ⟨some "40001", if n = 1 then m1 else m2⟩

/-- An executor whose every attempt fails with the non-retryable
    SQLSTATE 22012. -/
def exec_all_22012 : Int → AttemptResult :=
  fun _ => .err ⟨some "22012", "division by zero"⟩

/-- An executor failing non-retryably on attempt 1 and succeeding with
    7 rows from attempt 2 on. -/
def exec_fail_then_ok : Int → AttemptResult :=
  fun n => if n = 1 then .err ⟨some "22012", "division by zero"⟩ else .ok 7

/-- The all-zero jitter draw. -/
def jit0 : Int → ℚ := fun _ => 0

/-- Evaluation helper for calculate_delay at concrete arguments: if z
    is the truncation of the jittered value, the delay is max 1 z. -/
lemma calculate_delay_eq (attempt base_delay_ms max_delay_ms : Int) (u : ℚ) (z : Int)
    (hz : 0 ≤ z)
    (hlo : (z : ℚ) ≤ min ((base_delay_ms : ℚ) * (2 : ℚ) ^ (attempt - 1)) (max_delay_ms : ℚ) *
      (4 / 5 + u * (2 / 5)))
    (hhi : min ((base_delay_ms : ℚ) * (2 : ℚ) ^ (attempt - 1)) (max_delay_ms : ℚ) *
      (4 / 5 + u * (2 / 5)) < z + 1) :
    calculate_delay attempt base_delay_ms max_delay_ms u = max 1 z := by
  have hz0 : (0 : ℚ) ≤ (z : ℚ) := by exact_mod_cast hz
  have harith :
      min ((base_delay_ms : ℚ) * (2 : ℚ) ^ (attempt - 1)) (max_delay_ms : ℚ) +
        (u * min ((base_delay_ms : ℚ) * (2 : ℚ) ^ (attempt - 1)) (max_delay_ms : ℚ) * (2 / 5) -
          min ((base_delay_ms : ℚ) * (2 : ℚ) ^ (attempt - 1)) (max_delay_ms : ℚ) * (1 / 5)) =
      min ((base_delay_ms : ℚ) * (2 : ℚ) ^ (attempt - 1)) (max_delay_ms : ℚ) *
        (4 / 5 + u * (2 / 5)) := by ring
  have hneg : ¬ (min ((base_delay_ms : ℚ) * (2 : ℚ) ^ (attempt - 1)) (max_delay_ms : ℚ) *
      (4 / 5 + u * (2 / 5)) < 0) := by linarith
  simp only [calculate_delay]
  rw [harith, ctrunc, if_neg hneg]
  congr 1
  exact Int.floor_eq_iff.mpr ⟨hlo, hhi⟩

example : is_retryable_sqlstate "40P01" [some "40001", some "40P01"] = true := by decide
example : is_retryable_sqlstate "40p01" [some "40001", some "40P01"] = false := by decide
example : calculate_delay 1 50 1000 0 = 40 := by
  rw [calculate_delay_eq 1 50 1000 0 40 (by norm_num) (by norm_num [min_def])
    (by norm_num [min_def])]
  decide
example : calculate_delay 1 0 0 0 = 1 := by
  rw [calculate_delay_eq 1 0 0 0 0 le_rfl (by norm_num [min_def]) (by norm_num [min_def])]
  decide
example : calculate_delay 1 11 12 0 = 8 := by
  rw [calculate_delay_eq 1 11 12 0 8 (by norm_num) (by norm_num [min_def])
    (by norm_num [min_def])]
  decide

section LoopLemmas

variable (states : List (Option String)) (base_delay_ms max_delay_ms max_tries : Int)
variable (exec : Int → AttemptResult) (jit : Int → ℚ)

lemma classify_fst (attempt : Int) (e : ExecError) :
    (classify states max_tries attempt e).1 = error_is_retryable states e := by
  unfold classify error_is_retryable
  cases e.code with
  | none => rfl
  | some sqlstate => by_cases h : is_retryable_sqlstate sqlstate states <;> simp [h]

lemma loop_v1_bounds (fuel : Nat) : ∀ (attempt : Int) (last : Option ExecError),
    1 ≤ fuel → attempt + (fuel : Int) = max_tries + 1 →
    attempt ≤ (loop_v1 states base_delay_ms max_delay_ms max_tries exec jit
        fuel attempt last).attempts ∧
      (loop_v1 states base_delay_ms max_delay_ms max_tries exec jit
        fuel attempt last).attempts ≤ max_tries ∧
      ((loop_v1 states base_delay_ms max_delay_ms max_tries exec jit
        fuel attempt last).sleeps.length : Int) ≤
        (loop_v1 states base_delay_ms max_delay_ms max_tries exec jit
          fuel attempt last).attempts - attempt := by
  induction fuel with
  | zero => intro attempt last hfuel _; omega
  | succ f ih =>
    intro attempt last _ hinv
    simp only [loop_v1]
    cases hex : exec attempt with
    | ok rows =>
      simp only
      refine ⟨le_refl _, by push_cast at hinv; omega, by simp⟩
    | err e =>
      simp only
      by_cases hc : (classify states max_tries attempt e).1 = false ∨ attempt = max_tries
      · rw [if_pos hc]
        cases f with
        | zero =>
          simp only [loop_v1, List.length_nil]
          push_cast at hinv
          refine ⟨by omega, by omega, by omega⟩
        | succ f2 =>
          obtain ⟨h1, h2, h3⟩ := ih (attempt + 1) (some e) (by omega)
            (by push_cast at hinv ⊢; omega)
          dsimp only
          refine ⟨by omega, h2, by omega⟩
      · rw [if_neg hc]
        push_neg at hc
        have hf : 1 ≤ f := by push_cast at hinv; omega
        obtain ⟨h1, h2, h3⟩ := ih (attempt + 1) last hf (by push_cast at hinv ⊢; omega)
        have hlt : attempt < max_tries := by push_cast at hinv; omega
        rw [if_pos hlt]
        dsimp only
        simp only [List.length_append, List.length_cons, List.length_nil]
        refine ⟨by omega, h2, by push_cast; omega⟩

lemma loop_v2_bounds (fuel : Nat) : ∀ (attempt : Int),
    1 ≤ fuel → attempt + (fuel : Int) = max_tries + 1 →
    attempt ≤ (loop_v2 states base_delay_ms max_delay_ms max_tries exec jit
        fuel attempt).attempts ∧
      (loop_v2 states base_delay_ms max_delay_ms max_tries exec jit
        fuel attempt).attempts ≤ max_tries ∧
      ((loop_v2 states base_delay_ms max_delay_ms max_tries exec jit
        fuel attempt).sleeps.length : Int) ≤
        (loop_v2 states base_delay_ms max_delay_ms max_tries exec jit
          fuel attempt).attempts - attempt := by
  induction fuel with
  | zero => intro attempt hfuel _; omega
  | succ f ih =>
    intro attempt _ hinv
    simp only [loop_v2]
    cases hex : exec attempt with
    | ok rows =>
      simp only
      refine ⟨le_refl _, by push_cast at hinv; omega, by simp⟩
    | err e =>
      simp only
      by_cases hc : (classify states max_tries attempt e).1 = false ∨ attempt = max_tries
      · rw [if_pos hc]
        push_cast at hinv
        dsimp only
        refine ⟨le_refl _, by omega, by simp⟩
      · rw [if_neg hc]
        push_neg at hc
        have hf : 1 ≤ f := by push_cast at hinv; omega
        obtain ⟨h1, h2, h3⟩ := ih (attempt + 1) hf (by push_cast at hinv ⊢; omega)
        have hlt : attempt < max_tries := by push_cast at hinv; omega
        rw [if_pos hlt]
        dsimp only
        simp only [List.length_append, List.length_cons, List.length_nil]
        refine ⟨by omega, h2, by push_cast; omega⟩

lemma loop_v1_some_last (fuel : Nat) : ∀ (attempt : Int) (e0 : ExecError),
    (loop_v1 states base_delay_ms max_delay_ms max_tries exec jit
      fuel attempt (some e0)).outcome ≠ .exhausted none := by
  induction fuel with
  | zero => intro attempt e0; simp [loop_v1]
  | succ f ih =>
    intro attempt e0
    simp only [loop_v1]
    cases hex : exec attempt with
    | ok rows => simp
    | err e =>
      simp only
      by_cases hc : (classify states max_tries attempt e).1 = false ∨ attempt = max_tries
      · rw [if_pos hc]
        exact ih (attempt + 1) e
      · rw [if_neg hc]
        exact ih (attempt + 1) e0

lemma loop_v1_no_internal (fuel : Nat) : ∀ (attempt : Int) (last : Option ExecError),
    1 ≤ fuel → attempt + (fuel : Int) = max_tries + 1 →
    (loop_v1 states base_delay_ms max_delay_ms max_tries exec jit
      fuel attempt last).outcome ≠ .exhausted none := by
  induction fuel with
  | zero => intro attempt last hfuel; omega
  | succ f ih =>
    intro attempt last _ hinv
    simp only [loop_v1]
    cases hex : exec attempt with
    | ok rows => simp
    | err e =>
      simp only
      by_cases hc : (classify states max_tries attempt e).1 = false ∨ attempt = max_tries
      · rw [if_pos hc]
        exact loop_v1_some_last states base_delay_ms max_delay_ms max_tries exec jit
          f (attempt + 1) e
      · rw [if_neg hc]
        push_neg at hc
        have hf : 1 ≤ f := by push_cast at hinv; omega
        exact ih (attempt + 1) last hf (by push_cast at hinv ⊢; omega)

lemma loop_v2_no_fellthrough (fuel : Nat) : ∀ (attempt : Int),
    1 ≤ fuel → attempt + (fuel : Int) = max_tries + 1 →
    (loop_v2 states base_delay_ms max_delay_ms max_tries exec jit
      fuel attempt).outcome ≠ .fellThrough := by
  induction fuel with
  | zero => intro attempt hfuel; omega
  | succ f ih =>
    intro attempt _ hinv
    simp only [loop_v2]
    cases hex : exec attempt with
    | ok rows => simp
    | err e =>
      simp only
      by_cases hc : (classify states max_tries attempt e).1 = false ∨ attempt = max_tries
      · rw [if_pos hc]
        simp
      · rw [if_neg hc]
        push_neg at hc
        have hf : 1 ≤ f := by push_cast at hinv; omega
        exact ih (attempt + 1) hf (by push_cast at hinv ⊢; omega)

lemma loop_v1_all_retryable (fuel : Nat) : ∀ (attempt : Int) (last : Option ExecError),
    1 ≤ fuel → attempt + (fuel : Int) = max_tries + 1 →
    (∀ n, attempt ≤ n → n ≤ max_tries →
      ∃ e, exec n = .err e ∧ error_is_retryable states e = true) →
    (loop_v1 states base_delay_ms max_delay_ms max_tries exec jit
        fuel attempt last).attempts = max_tries ∧
      ∀ e, exec max_tries = .err e →
        (loop_v1 states base_delay_ms max_delay_ms max_tries exec jit
          fuel attempt last).outcome = .exhausted (some e) := by
  induction fuel with
  | zero => intro attempt last hfuel; omega
  | succ f ih =>
    intro attempt last _ hinv hall
    have hle : attempt ≤ max_tries := by push_cast at hinv; omega
    obtain ⟨e, he, hr⟩ := hall attempt le_rfl hle
    have hcls : (classify states max_tries attempt e).1 = true := by
      rw [classify_fst]; exact hr
    simp only [loop_v1, he]
    by_cases hmt : attempt = max_tries
    · rw [if_pos (Or.inr hmt)]
      have hf0 : f = 0 := by push_cast at hinv; omega
      subst hf0
      simp only [loop_v1]
      refine ⟨by omega, ?_⟩
      intro e2 he2
      rw [hmt] at he
      rw [he] at he2
      injection he2 with h
      rw [h]
    · rw [if_neg (by simp [hcls, hmt])]
      have hf : 1 ≤ f := by push_cast at hinv; omega
      obtain ⟨h1, h2⟩ := ih (attempt + 1) last hf (by push_cast at hinv ⊢; omega)
        (fun n hn1 hn2 => hall n (by omega) hn2)
      dsimp only
      exact ⟨h1, h2⟩

lemma loop_v2_all_retryable (fuel : Nat) : ∀ (attempt : Int),
    1 ≤ fuel → attempt + (fuel : Int) = max_tries + 1 →
    (∀ n, attempt ≤ n → n ≤ max_tries →
      ∃ e, exec n = .err e ∧ error_is_retryable states e = true) →
    (loop_v2 states base_delay_ms max_delay_ms max_tries exec jit
        fuel attempt).attempts = max_tries ∧
      ∀ e, exec max_tries = .err e →
        (loop_v2 states base_delay_ms max_delay_ms max_tries exec jit
          fuel attempt).outcome = .thrown e := by
  induction fuel with
  | zero => intro attempt hfuel; omega
  | succ f ih =>
    intro attempt _ hinv hall
    have hle : attempt ≤ max_tries := by push_cast at hinv; omega
    obtain ⟨e, he, hr⟩ := hall attempt le_rfl hle
    have hcls : (classify states max_tries attempt e).1 = true := by
      rw [classify_fst]; exact hr
    simp only [loop_v2, he]
    by_cases hmt : attempt = max_tries
    · rw [if_pos (Or.inr hmt)]
      dsimp only
      refine ⟨hmt, ?_⟩
      intro e2 he2
      rw [hmt] at he
      rw [he] at he2
      injection he2 with h
      rw [h]
    · rw [if_neg (by simp [hcls, hmt])]
      have hf : 1 ≤ f := by push_cast at hinv; omega
      obtain ⟨h1, h2⟩ := ih (attempt + 1) hf (by push_cast at hinv ⊢; omega)
        (fun n hn1 hn2 => hall n (by omega) hn2)
      dsimp only
      exact ⟨h1, h2⟩

lemma loop_equiv_all_retryable (fuel : Nat) : ∀ (attempt : Int) (last : Option ExecError),
    attempt + (fuel : Int) = max_tries + 1 → 1 ≤ fuel →
    (∀ n e, attempt ≤ n → n ≤ max_tries → exec n = .err e →
      error_is_retryable states e = true) →
    finish_v1 (loop_v1 states base_delay_ms max_delay_ms max_tries exec jit
        fuel attempt last) =
      finish_v2 (loop_v2 states base_delay_ms max_delay_ms max_tries exec jit
        fuel attempt) := by
  induction fuel with
  | zero => intro attempt last _ hfuel; omega
  | succ f ih =>
    intro attempt last hinv _ hall
    have hle : attempt ≤ max_tries := by push_cast at hinv; omega
    simp only [loop_v1, loop_v2]
    cases hex : exec attempt with
    | ok rows => rfl
    | err e =>
      have hr : error_is_retryable states e = true := hall attempt e le_rfl hle hex
      have hcls : (classify states max_tries attempt e).1 = true := by
        rw [classify_fst]; exact hr
      simp only
      by_cases hmt : attempt = max_tries
      · rw [if_pos (Or.inr hmt), if_pos (Or.inr hmt)]
        have hf0 : f = 0 := by push_cast at hinv; omega
        subst hf0
        simp only [loop_v1]
        simp [finish_v1, finish_v2]
      · have hcond : ¬ ((classify states max_tries attempt e).1 = false ∨
            attempt = max_tries) := by
          rw [hcls]
          simp [hmt]
        rw [if_neg hcond, if_neg hcond]
        have hf : 1 ≤ f := by push_cast at hinv; omega
        have h := ih (attempt + 1) last (by push_cast at hinv ⊢; omega) hf
          (fun n e2 hn1 hn2 => hall n e2 (by omega) hn2)
        simp only [finish_v1, finish_v2, RunTrace.mk.injEq] at h ⊢
        exact ⟨h.1, by rw [h.2.1], by rw [h.2.2.1], h.2.2.2⟩

end LoopLemmas

lemma run_v1_eq_loop (cfg : Config) (args : Args) (exec : Int → AttemptResult)
    (jit : Int → ℚ) (stmt : Stmt) (hsql : args.sql = some stmt)
    (hn : stmt.nStatements = 1) (ht : stmt.isTransactionControl = false)
    (hmt : 1 ≤ resolved_max_tries cfg args)
    (hb : 0 ≤ resolved_base_delay cfg args)
    (hbm : resolved_base_delay cfg args ≤ resolved_max_delay cfg args) :
    pg_retry_retry_v1 cfg args exec jit =
      finish_v1 (loop_v1 (resolved_sqlstates cfg args) (resolved_base_delay cfg args)
        (resolved_max_delay cfg args) (resolved_max_tries cfg args) exec jit
        (resolved_max_tries cfg args).toNat 1 none) := by
  have hv : validate_sql stmt = none := by
    simp [validate_sql, is_single_statement, contains_transaction_control, hn, ht]
  simp only [pg_retry_retry_v1, hsql]
  rw [if_neg (by omega), if_neg (by omega), if_neg (by omega), hv]

lemma run_v2_eq_loop (cfg : Config) (args : Args) (exec : Int → AttemptResult)
    (jit : Int → ℚ) (stmt : Stmt) (hsql : args.sql = some stmt)
    (hn : stmt.nStatements = 1) (ht : stmt.isTransactionControl = false)
    (hmt : 1 ≤ resolved_max_tries cfg args)
    (hb : 0 ≤ resolved_base_delay cfg args)
    (hbm : resolved_base_delay cfg args ≤ resolved_max_delay cfg args) :
    pg_retry_retry_v2 cfg args exec jit =
      finish_v2 (loop_v2 (resolved_sqlstates cfg args) (resolved_base_delay cfg args)
        (resolved_max_delay cfg args) (resolved_max_tries cfg args) exec jit
        (resolved_max_tries cfg args).toNat 1) := by
  have hv : validate_sql stmt = none := by
    simp [validate_sql, is_single_statement, contains_transaction_control, hn, ht]
  simp only [pg_retry_retry_v2, hsql]
  rw [if_neg (by omega), if_neg (by omega), if_neg (by omega), hv]

/-- C1: for every invocation that passes validation in which every
    attempt fails with a retryable error code, both source variants of
    the retry loop perform exactly maxTries attempts, and the
    invocation terminates with exactly one outcome, here the one
    propagated Failure (the final attempt's error). -/
theorem c1_all_retryable_exactly_max_tries (cfg : Config) (args : Args)
    (exec : Int → AttemptResult) (jit : Int → ℚ) (stmt : Stmt)
    (hsql : args.sql = some stmt) (hn : stmt.nStatements = 1)
    (ht : stmt.isTransactionControl = false)
    (hmt : 1 ≤ resolved_max_tries cfg args)
    (hb : 0 ≤ resolved_base_delay cfg args)
    (hbm : resolved_base_delay cfg args ≤ resolved_max_delay cfg args)
    (hall : ∀ n, 1 ≤ n → n ≤ resolved_max_tries cfg args →
      ∃ e, exec n = .err e ∧
        error_is_retryable (resolved_sqlstates cfg args) e = true) :
    (pg_retry_retry_v1 cfg args exec jit).attempts = resolved_max_tries cfg args ∧
    (pg_retry_retry_v2 cfg args exec jit).attempts = resolved_max_tries cfg args ∧
    ∃ e, exec (resolved_max_tries cfg args) = .err e ∧
      (pg_retry_retry_v1 cfg args exec jit).result = .err (.execError e) ∧
      (pg_retry_retry_v2 cfg args exec jit).result = .err (.execError e) := by
  rw [run_v1_eq_loop cfg args exec jit stmt hsql hn ht hmt hb hbm,
    run_v2_eq_loop cfg args exec jit stmt hsql hn ht hmt hb hbm]
  have hfuel : 1 ≤ (resolved_max_tries cfg args).toNat := by omega
  have hinv : (1 : Int) + ((resolved_max_tries cfg args).toNat : Int) =
      resolved_max_tries cfg args + 1 := by omega
  obtain ⟨h1, h2⟩ := loop_v1_all_retryable (resolved_sqlstates cfg args)
    (resolved_base_delay cfg args) (resolved_max_delay cfg args)
    (resolved_max_tries cfg args) exec jit (resolved_max_tries cfg args).toNat
    1 none hfuel hinv hall
  obtain ⟨g1, g2⟩ := loop_v2_all_retryable (resolved_sqlstates cfg args)
    (resolved_base_delay cfg args) (resolved_max_delay cfg args)
    (resolved_max_tries cfg args) exec jit (resolved_max_tries cfg args).toNat
    1 hfuel hinv hall
  obtain ⟨e, he, hr⟩ := hall (resolved_max_tries cfg args) (by omega) le_rfl
  refine ⟨by simpa [finish_v1] using h1, by simpa [finish_v2] using g1, e, he, ?_, ?_⟩
  · simp [finish_v1, h2 e he]
  · simp [finish_v2, g2 e he]

/-- Witness for C1: with max_tries 3 and every attempt failing with
    SQLSTATE 40001, both variants perform exactly 3 attempts. -/
theorem c1_witness :
    (pg_retry_retry_v1 defaultConfig args_mt3 exec_all_40001 jit0).attempts = 3 ∧
    (pg_retry_retry_v2 defaultConfig args_mt3 exec_all_40001 jit0).attempts = 3 := by
  have h := c1_all_retryable_exactly_max_tries defaultConfig args_mt3 exec_all_40001
    jit0 okStmt rfl rfl rfl (by decide) (by decide) (by decide)
    (fun n h1 h2 => ⟨⟨some "40001", "could not serialize access"⟩, rfl, by decide⟩)
  exact ⟨h.1, h.2.1⟩

/-- C2: at exhaustion (all maxTries attempts failed retryably), both
    variants propagate the final attempt's underlying failure verbatim,
    with its error code and message, not a synthetic exhausted error. -/
theorem c2_exhaustion_propagates_last_error (cfg : Config) (args : Args)
    (exec : Int → AttemptResult) (jit : Int → ℚ) (stmt : Stmt)
    (hsql : args.sql = some stmt) (hn : stmt.nStatements = 1)
    (ht : stmt.isTransactionControl = false)
    (hmt : 1 ≤ resolved_max_tries cfg args)
    (hb : 0 ≤ resolved_base_delay cfg args)
    (hbm : resolved_base_delay cfg args ≤ resolved_max_delay cfg args)
    (hall : ∀ n, 1 ≤ n → n ≤ resolved_max_tries cfg args →
      ∃ e, exec n = .err e ∧
        error_is_retryable (resolved_sqlstates cfg args) e = true) :
    ∀ code message, exec (resolved_max_tries cfg args) = .err ⟨code, message⟩ →
      (pg_retry_retry_v1 cfg args exec jit).result =
        .err (.execError ⟨code, message⟩) ∧
      (pg_retry_retry_v2 cfg args exec jit).result =
        .err (.execError ⟨code, message⟩) := by
  intro code message he
  rw [run_v1_eq_loop cfg args exec jit stmt hsql hn ht hmt hb hbm,
    run_v2_eq_loop cfg args exec jit stmt hsql hn ht hmt hb hbm]
  have hfuel : 1 ≤ (resolved_max_tries cfg args).toNat := by omega
  have hinv : (1 : Int) + ((resolved_max_tries cfg args).toNat : Int) =
      resolved_max_tries cfg args + 1 := by omega
  obtain ⟨h1, h2⟩ := loop_v1_all_retryable (resolved_sqlstates cfg args)
    (resolved_base_delay cfg args) (resolved_max_delay cfg args)
    (resolved_max_tries cfg args) exec jit (resolved_max_tries cfg args).toNat
    1 none hfuel hinv hall
  obtain ⟨g1, g2⟩ := loop_v2_all_retryable (resolved_sqlstates cfg args)
    (resolved_base_delay cfg args) (resolved_max_delay cfg args)
    (resolved_max_tries cfg args) exec jit (resolved_max_tries cfg args).toNat
    1 hfuel hinv hall
  constructor
  · simp [finish_v1, h2 ⟨code, message⟩ he]
  · simp [finish_v2, g2 ⟨code, message⟩ he]

/-- Witness for C2: with max_tries 3 and every attempt failing with
    SQLSTATE 40001, both variants propagate that code and message. -/
theorem c2_witness :
    (pg_retry_retry_v1 defaultConfig args_mt3 exec_all_40001 jit0).result =
      .err (.execError ⟨some "40001", "could not serialize access"⟩) ∧
    (pg_retry_retry_v2 defaultConfig args_mt3 exec_all_40001 jit0).result =
      .err (.execError ⟨some "40001", "could not serialize access"⟩) :=
  c2_exhaustion_propagates_last_error defaultConfig args_mt3 exec_all_40001
    jit0 okStmt rfl rfl rfl (by decide) (by decide) (by decide)
    (fun n h1 h2 => ⟨⟨some "40001", "could not serialize access"⟩, rfl, by decide⟩)
    (some "40001") "could not serialize access" rfl

/-- C3 counterexample: with max_tries 2 and both attempts failing with
    SQLSTATE 40001, both variants emit 2 warnings, not 1: the
    exhausting failure on attempt 2 is warned before it is rethrown. -/
theorem c3_counterexample :
    (pg_retry_retry_v1 defaultConfig args_mt2 (exec_40001_msgs "m1" "m2")
      jit0).warnings.length = 2 ∧
    ¬ ((pg_retry_retry_v1 defaultConfig args_mt2 (exec_40001_msgs "m1" "m2")
      jit0).warnings.length = 1) ∧
    (pg_retry_retry_v2 defaultConfig args_mt2 (exec_40001_msgs "m1" "m2")
      jit0).warnings.length = 2 ∧
    ¬ ((pg_retry_retry_v2 defaultConfig args_mt2 (exec_40001_msgs "m1" "m2")
      jit0).warnings.length = 1) := by
  decide

/-- C3 (amended): for max_tries 2 with both attempts failing with
    retryable code 40001, both variants emit exactly 2 warnings, one
    per attempt (including the exhausting attempt 2, which is warned
    and then rethrown), and the propagated ExecutionFailure carries
    code 40001 and the attempt-2 message. -/
theorem c3_two_warnings_and_last_message (m1 m2 : String) (jit : Int → ℚ) :
    (pg_retry_retry_v1 defaultConfig args_mt2 (exec_40001_msgs m1 m2) jit).warnings =
      [⟨1, 2, "40001", m1⟩, ⟨2, 2, "40001", m2⟩] ∧
    (pg_retry_retry_v1 defaultConfig args_mt2 (exec_40001_msgs m1 m2) jit).result =
      .err (.execError ⟨some "40001", m2⟩) ∧
    (pg_retry_retry_v1 defaultConfig args_mt2 (exec_40001_msgs m1 m2) jit).attempts = 2 ∧
    (pg_retry_retry_v2 defaultConfig args_mt2 (exec_40001_msgs m1 m2) jit).warnings =
      [⟨1, 2, "40001", m1⟩, ⟨2, 2, "40001", m2⟩] ∧
    (pg_retry_retry_v2 defaultConfig args_mt2 (exec_40001_msgs m1 m2) jit).result =
      .err (.execError ⟨some "40001", m2⟩) ∧
    (pg_retry_retry_v2 defaultConfig args_mt2 (exec_40001_msgs m1 m2) jit).attempts = 2 := by
  rw [run_v1_eq_loop defaultConfig args_mt2 (exec_40001_msgs m1 m2) jit okStmt rfl rfl
    rfl (by decide) (by decide) (by decide),
    run_v2_eq_loop defaultConfig args_mt2 (exec_40001_msgs m1 m2) jit okStmt rfl rfl
    rfl (by decide) (by decide) (by decide)]
  simp [loop_v1, loop_v2, classify, is_retryable_sqlstate, exec_40001_msgs,
    finish_v1, finish_v2, resolved_max_tries, resolved_base_delay,
    resolved_max_delay, resolved_sqlstates, args_mt2, defaultConfig, Option.getD]

/-- C4: evaluation at the failing input. A non-retryable failure
    (SQLSTATE 22012) on attempt 1 with max_tries 5 is handled
    immediately only by the v2 variant (1 attempt); the v1 variant
    keeps iterating after saving the error and performs all 5 attempts
    (with no warning and no sleep), propagating the attempt-5 failure.
    If a later attempt succeeds, v1 even returns success where v2 had
    already propagated the failure. -/
theorem c4_nonretryable_not_immediate_in_v1 :
    (pg_retry_retry_v1 defaultConfig args_mt5 exec_all_22012 jit0).attempts = 5 ∧
    (pg_retry_retry_v1 defaultConfig args_mt5 exec_all_22012 jit0).result =
      .err (.execError ⟨some "22012", "division by zero"⟩) ∧
    (pg_retry_retry_v1 defaultConfig args_mt5 exec_all_22012 jit0).warnings = [] ∧
    (pg_retry_retry_v1 defaultConfig args_mt5 exec_all_22012 jit0).sleeps = [] ∧
    (pg_retry_retry_v2 defaultConfig args_mt5 exec_all_22012 jit0).attempts = 1 ∧
    (pg_retry_retry_v2 defaultConfig args_mt5 exec_all_22012 jit0).result =
      .err (.execError ⟨some "22012", "division by zero"⟩) ∧
    (pg_retry_retry_v2 defaultConfig args_mt5 exec_all_22012 jit0).warnings = [] ∧
    (pg_retry_retry_v2 defaultConfig args_mt5 exec_all_22012 jit0).sleeps = [] ∧
    (pg_retry_retry_v1 defaultConfig args_mt5 exec_fail_then_ok jit0).result = .ok 7 ∧
    (pg_retry_retry_v1 defaultConfig args_mt5 exec_fail_then_ok jit0).attempts = 2 := by
  decide

/-- C5: every validation failure — null statement, invalid max_tries,
    negative delay, base above max, not exactly one parsed statement,
    or a transaction-control statement — is surfaced before any
    attempt in both variants: zero attempts, zero warnings, zero
    sleeps, for every configuration and every max_tries value. -/
theorem c5_validation_rejects_before_any_attempt (cfg : Config) (args : Args)
    (exec : Int → AttemptResult) (jit : Int → ℚ) :
    (args.sql = none →
      pg_retry_retry_v1 cfg args exec jit = ⟨0, [], [], .err .nullInput⟩ ∧
      pg_retry_retry_v2 cfg args exec jit = ⟨0, [], [], .err .nullInput⟩) ∧
    (∀ stmt, args.sql = some stmt → resolved_max_tries cfg args < 1 →
      pg_retry_retry_v1 cfg args exec jit = ⟨0, [], [], .err .invalidParameter⟩ ∧
      pg_retry_retry_v2 cfg args exec jit = ⟨0, [], [], .err .invalidParameter⟩) ∧
    (∀ stmt, args.sql = some stmt → 1 ≤ resolved_max_tries cfg args →
      (resolved_base_delay cfg args < 0 ∨ resolved_max_delay cfg args < 0) →
      pg_retry_retry_v1 cfg args exec jit = ⟨0, [], [], .err .invalidParameter⟩ ∧
      pg_retry_retry_v2 cfg args exec jit = ⟨0, [], [], .err .invalidParameter⟩) ∧
    (∀ stmt, args.sql = some stmt → 1 ≤ resolved_max_tries cfg args →
      0 ≤ resolved_base_delay cfg args → 0 ≤ resolved_max_delay cfg args →
      resolved_max_delay cfg args < resolved_base_delay cfg args →
      pg_retry_retry_v1 cfg args exec jit = ⟨0, [], [], .err .invalidParameter⟩ ∧
      pg_retry_retry_v2 cfg args exec jit = ⟨0, [], [], .err .invalidParameter⟩) ∧
    (∀ stmt, args.sql = some stmt → 1 ≤ resolved_max_tries cfg args →
      0 ≤ resolved_base_delay cfg args →
      resolved_base_delay cfg args ≤ resolved_max_delay cfg args →
      stmt.nStatements ≠ 1 →
      pg_retry_retry_v1 cfg args exec jit = ⟨0, [], [], .err .syntaxError⟩ ∧
      pg_retry_retry_v2 cfg args exec jit = ⟨0, [], [], .err .syntaxError⟩) ∧
    (∀ stmt, args.sql = some stmt → 1 ≤ resolved_max_tries cfg args →
      0 ≤ resolved_base_delay cfg args →
      resolved_base_delay cfg args ≤ resolved_max_delay cfg args →
      stmt.nStatements = 1 → stmt.isTransactionControl = true →
      pg_retry_retry_v1 cfg args exec jit = ⟨0, [], [], .err .unsupportedStatement⟩ ∧
      pg_retry_retry_v2 cfg args exec jit = ⟨0, [], [], .err .unsupportedStatement⟩) := by
  refine ⟨?_, ?_, ?_, ?_, ?_, ?_⟩
  · intro h
    constructor <;> simp [pg_retry_retry_v1, pg_retry_retry_v2, h]
  · intro stmt hsql h1
    constructor <;>
      simp only [pg_retry_retry_v1, pg_retry_retry_v2, hsql] <;>
      rw [if_pos h1]
  · intro stmt hsql h1 h2
    constructor <;>
      simp only [pg_retry_retry_v1, pg_retry_retry_v2, hsql] <;>
      rw [if_neg (by omega), if_pos h2]
  · intro stmt hsql h1 h2 h3 h4
    constructor <;>
      simp only [pg_retry_retry_v1, pg_retry_retry_v2, hsql] <;>
      rw [if_neg (by omega), if_neg (by omega), if_pos (by omega)]
  · intro stmt hsql h1 h2 h3 hne
    have hv : validate_sql stmt = some .syntaxError := by
      simp [validate_sql, is_single_statement, hne]
    constructor <;>
      simp only [pg_retry_retry_v1, pg_retry_retry_v2, hsql] <;>
      rw [if_neg (by omega), if_neg (by omega), if_neg (by omega), hv]
  · intro stmt hsql h1 h2 h3 hone htc
    have hv : validate_sql stmt = some .unsupportedStatement := by
      simp [validate_sql, is_single_statement, contains_transaction_control, hone, htc]
    constructor <;>
      simp only [pg_retry_retry_v1, pg_retry_retry_v2, hsql] <;>
      rw [if_neg (by omega), if_neg (by omega), if_neg (by omega), hv]

/-- Witness for C5: a null statement, a zero max_tries, a negative
    delay, an inverted delay pair, a two-statement parse and a
    transaction-control statement are each rejected with zero
    attempts in both variants. -/
theorem c5_witness :
    (pg_retry_retry_v1 defaultConfig ⟨none, none, none, none, none⟩
        (fun _ => .ok 0) jit0 = ⟨0, [], [], .err .nullInput⟩ ∧
      pg_retry_retry_v2 defaultConfig ⟨none, none, none, none, none⟩
        (fun _ => .ok 0) jit0 = ⟨0, [], [], .err .nullInput⟩) ∧
    (pg_retry_retry_v1 defaultConfig ⟨some okStmt, some 0, none, none, none⟩
        (fun _ => .ok 0) jit0 = ⟨0, [], [], .err .invalidParameter⟩ ∧
      pg_retry_retry_v2 defaultConfig ⟨some okStmt, some 0, none, none, none⟩
        (fun _ => .ok 0) jit0 = ⟨0, [], [], .err .invalidParameter⟩) ∧
    (pg_retry_retry_v1 defaultConfig ⟨some okStmt, some 3, some (-1), none, none⟩
        (fun _ => .ok 0) jit0 = ⟨0, [], [], .err .invalidParameter⟩ ∧
      pg_retry_retry_v2 defaultConfig ⟨some okStmt, some 3, some (-1), none, none⟩
        (fun _ => .ok 0) jit0 = ⟨0, [], [], .err .invalidParameter⟩) ∧
    (pg_retry_retry_v1 defaultConfig ⟨some okStmt, some 3, some 100, some 5, none⟩
        (fun _ => .ok 0) jit0 = ⟨0, [], [], .err .invalidParameter⟩ ∧
      pg_retry_retry_v2 defaultConfig ⟨some okStmt, some 3, some 100, some 5, none⟩
        (fun _ => .ok 0) jit0 = ⟨0, [], [], .err .invalidParameter⟩) ∧
    (pg_retry_retry_v1 defaultConfig ⟨some ⟨2, false⟩, some 3, none, none, none⟩
        (fun _ => .ok 0) jit0 = ⟨0, [], [], .err .syntaxError⟩ ∧
      pg_retry_retry_v2 defaultConfig ⟨some ⟨2, false⟩, some 3, none, none, none⟩
        (fun _ => .ok 0) jit0 = ⟨0, [], [], .err .syntaxError⟩) ∧
    (pg_retry_retry_v1 defaultConfig ⟨some ⟨1, true⟩, some 1, none, none, none⟩
        (fun _ => .ok 0) jit0 = ⟨0, [], [], .err .unsupportedStatement⟩ ∧
      pg_retry_retry_v2 defaultConfig ⟨some ⟨1, true⟩, some 1, none, none, none⟩
        (fun _ => .ok 0) jit0 = ⟨0, [], [], .err .unsupportedStatement⟩) := by
  refine ⟨?_, ?_, ?_, ?_, ?_, ?_⟩
  · exact (c5_validation_rejects_before_any_attempt defaultConfig
      ⟨none, none, none, none, none⟩ (fun _ => .ok 0) jit0).1 rfl
  · exact (c5_validation_rejects_before_any_attempt defaultConfig
      ⟨some okStmt, some 0, none, none, none⟩ (fun _ => .ok 0) jit0).2.1
      okStmt rfl (by decide)
  · exact (c5_validation_rejects_before_any_attempt defaultConfig
      ⟨some okStmt, some 3, some (-1), none, none⟩ (fun _ => .ok 0) jit0).2.2.1
      okStmt rfl (by decide) (by decide)
  · exact (c5_validation_rejects_before_any_attempt defaultConfig
      ⟨some okStmt, some 3, some 100, some 5, none⟩ (fun _ => .ok 0) jit0).2.2.2.1
      okStmt rfl (by decide) (by decide) (by decide) (by decide)
  · exact (c5_validation_rejects_before_any_attempt defaultConfig
      ⟨some ⟨2, false⟩, some 3, none, none, none⟩ (fun _ => .ok 0) jit0).2.2.2.2.1
      ⟨2, false⟩ rfl (by decide) (by decide) (by decide) (by decide)
  · exact (c5_validation_rejects_before_any_attempt defaultConfig
      ⟨some ⟨1, true⟩, some 1, none, none, none⟩ (fun _ => .ok 0) jit0).2.2.2.2.2
      ⟨1, true⟩ rfl (by decide) (by decide) (by decide) rfl rfl

/-- Decomposition of calculate_delay: when the jittered value is
    nonnegative, the (long) cast is a floor, and the jittered value
    factors as capped * (4/5 + u * 2/5). -/
lemma calculate_delay_as_floor (attempt base_delay_ms max_delay_ms : Int) (u : ℚ)
    (hj0 : 0 ≤ min ((base_delay_ms : ℚ) * (2 : ℚ) ^ (attempt - 1)) (max_delay_ms : ℚ) *
      (4 / 5 + u * (2 / 5))) :
    calculate_delay attempt base_delay_ms max_delay_ms u =
      max 1 (Int.floor
        (min ((base_delay_ms : ℚ) * (2 : ℚ) ^ (attempt - 1)) (max_delay_ms : ℚ) *
          (4 / 5 + u * (2 / 5)))) := by
  have harith :
      min ((base_delay_ms : ℚ) * (2 : ℚ) ^ (attempt - 1)) (max_delay_ms : ℚ) +
        (u * min ((base_delay_ms : ℚ) * (2 : ℚ) ^ (attempt - 1)) (max_delay_ms : ℚ) * (2 / 5) -
          min ((base_delay_ms : ℚ) * (2 : ℚ) ^ (attempt - 1)) (max_delay_ms : ℚ) * (1 / 5)) =
      min ((base_delay_ms : ℚ) * (2 : ℚ) ^ (attempt - 1)) (max_delay_ms : ℚ) *
        (4 / 5 + u * (2 / 5)) := by ring
  simp only [calculate_delay]
  rw [harith, ctrunc, if_neg (not_lt.mpr hj0)]

/-- C6 (amended): for attempt >= 1, 0 <= baseDelayMs <= maxDelayMs and
    a uniform draw u in [0,1], the computed delay d satisfies:
    1 <= d and d <= max 1 (1.2 * maxDelayMs); when
    baseDelayMs * 2^(attempt-1) < maxDelayMs, additionally
    0.8 * baseDelayMs * 2^(attempt-1) - 1 < d (the (long) cast can
    truncate below the un-truncated 0.8 lower bound by less than 1ms)
    and d <= max 1 (1.2 * baseDelayMs * 2^(attempt-1)); and
    baseDelayMs = maxDelayMs = 0 yields exactly 1ms. -/
theorem c6_backoff_delay_bounds (attempt base_delay_ms max_delay_ms : Int) (u : ℚ)
    (ha : 1 ≤ attempt) (hb : 0 ≤ base_delay_ms) (hbm : base_delay_ms ≤ max_delay_ms)
    (hu0 : 0 ≤ u) (hu1 : u ≤ 1) :
    1 ≤ calculate_delay attempt base_delay_ms max_delay_ms u ∧
    ((calculate_delay attempt base_delay_ms max_delay_ms u : ℚ) ≤
      max 1 ((6 / 5) * (max_delay_ms : ℚ))) ∧
    ((base_delay_ms : ℚ) * (2 : ℚ) ^ (attempt - 1) < (max_delay_ms : ℚ) →
      (4 / 5) * ((base_delay_ms : ℚ) * (2 : ℚ) ^ (attempt - 1)) - 1 <
        (calculate_delay attempt base_delay_ms max_delay_ms u : ℚ) ∧
      (calculate_delay attempt base_delay_ms max_delay_ms u : ℚ) ≤
        max 1 ((6 / 5) * ((base_delay_ms : ℚ) * (2 : ℚ) ^ (attempt - 1)))) ∧
    (base_delay_ms = 0 → max_delay_ms = 0 →
      calculate_delay attempt base_delay_ms max_delay_ms u = 1) := by
  have h2 : (0 : ℚ) < (2 : ℚ) ^ (attempt - 1) := zpow_pos (by norm_num) _
  have hbq : (0 : ℚ) ≤ (base_delay_ms : ℚ) := by exact_mod_cast hb
  have hmq : (0 : ℚ) ≤ (max_delay_ms : ℚ) := by exact_mod_cast le_trans hb hbm
  have hb0 : 0 ≤ (base_delay_ms : ℚ) * (2 : ℚ) ^ (attempt - 1) := mul_nonneg hbq h2.le
  have hc0 : 0 ≤ min ((base_delay_ms : ℚ) * (2 : ℚ) ^ (attempt - 1)) (max_delay_ms : ℚ) :=
    le_min hb0 hmq
  have hfac0 : (0 : ℚ) ≤ 4 / 5 + u * (2 / 5) := by nlinarith
  have hj0 : 0 ≤ min ((base_delay_ms : ℚ) * (2 : ℚ) ^ (attempt - 1)) (max_delay_ms : ℚ) *
      (4 / 5 + u * (2 / 5)) := mul_nonneg hc0 hfac0
  have hjlo : (4 / 5) * min ((base_delay_ms : ℚ) * (2 : ℚ) ^ (attempt - 1)) (max_delay_ms : ℚ) ≤
      min ((base_delay_ms : ℚ) * (2 : ℚ) ^ (attempt - 1)) (max_delay_ms : ℚ) *
        (4 / 5 + u * (2 / 5)) := by nlinarith [mul_nonneg hc0 hu0]
  have hjhi : min ((base_delay_ms : ℚ) * (2 : ℚ) ^ (attempt - 1)) (max_delay_ms : ℚ) *
      (4 / 5 + u * (2 / 5)) ≤
      (6 / 5) * min ((base_delay_ms : ℚ) * (2 : ℚ) ^ (attempt - 1)) (max_delay_ms : ℚ) := by
    nlinarith [mul_nonneg hc0 (sub_nonneg.mpr hu1)]
  have hfloor_le : ((Int.floor
      (min ((base_delay_ms : ℚ) * (2 : ℚ) ^ (attempt - 1)) (max_delay_ms : ℚ) *
        (4 / 5 + u * (2 / 5))) : Int) : ℚ) ≤
      min ((base_delay_ms : ℚ) * (2 : ℚ) ^ (attempt - 1)) (max_delay_ms : ℚ) *
        (4 / 5 + u * (2 / 5)) := Int.floor_le _
  rw [calculate_delay_as_floor attempt base_delay_ms max_delay_ms u hj0]
  refine ⟨le_max_left _ _, ?_, ?_, ?_⟩
  · push_cast [Int.cast_max]
    refine max_le_max le_rfl ?_
    have hcm : min ((base_delay_ms : ℚ) * (2 : ℚ) ^ (attempt - 1)) (max_delay_ms : ℚ) ≤
        (max_delay_ms : ℚ) := min_le_right _ _
    nlinarith
  · intro hlt
    have hcb : min ((base_delay_ms : ℚ) * (2 : ℚ) ^ (attempt - 1)) (max_delay_ms : ℚ) =
        (base_delay_ms : ℚ) * (2 : ℚ) ^ (attempt - 1) := min_eq_left hlt.le
    rw [hcb] at hjlo hjhi hfloor_le hj0 ⊢
    constructor
    · have hfl : (base_delay_ms : ℚ) * (2 : ℚ) ^ (attempt - 1) * (4 / 5 + u * (2 / 5)) - 1 <
          ((Int.floor ((base_delay_ms : ℚ) * (2 : ℚ) ^ (attempt - 1) *
            (4 / 5 + u * (2 / 5))) : Int) : ℚ) := Int.sub_one_lt_floor _
      have hmax : ((Int.floor ((base_delay_ms : ℚ) * (2 : ℚ) ^ (attempt - 1) *
          (4 / 5 + u * (2 / 5))) : Int) : ℚ) ≤
          ((max 1 (Int.floor ((base_delay_ms : ℚ) * (2 : ℚ) ^ (attempt - 1) *
            (4 / 5 + u * (2 / 5)))) : Int) : ℚ) := by
        exact_mod_cast le_max_right _ _
      linarith
    · push_cast [Int.cast_max]
      refine max_le_max le_rfl ?_
      linarith
  · intro hbz hmz
    subst hbz
    subst hmz
    norm_num

/-- C6 counterexample: the claimed interval [1, 1.2*maxDelayMs] fails
    at maxDelayMs = 0 (the delay is 1 > 0 = 1.2*0), and the claimed
    lower bound 0.8*base*2^(n-1) fails under the (long) truncation:
    for attempt 1, base 11, max 12, u = 0 the delay is 8, below
    0.8*11 = 8.8. -/
theorem c6_counterexample :
    (calculate_delay 1 0 0 0 = 1 ∧
      ¬ ((calculate_delay 1 0 0 0 : ℚ) ≤ (6 / 5) * ((0 : Int) : ℚ))) ∧
    (calculate_delay 1 11 12 0 = 8 ∧
      ((11 : Int) : ℚ) * (2 : ℚ) ^ ((1 : Int) - 1) < ((12 : Int) : ℚ) ∧
      ¬ ((4 / 5) * (((11 : Int) : ℚ) * (2 : ℚ) ^ ((1 : Int) - 1)) ≤
        (calculate_delay 1 11 12 0 : ℚ))) := by
  have h1 : calculate_delay 1 0 0 0 = 1 := by
    rw [calculate_delay_eq 1 0 0 0 0 le_rfl (by norm_num [min_def]) (by norm_num [min_def])]
    decide
  have h2 : calculate_delay 1 11 12 0 = 8 := by
    rw [calculate_delay_eq 1 11 12 0 8 (by norm_num) (by norm_num [min_def])
      (by norm_num [min_def])]
    decide
  refine ⟨⟨h1, ?_⟩, h2, by norm_num, ?_⟩
  · rw [h1]; norm_num
  · rw [h2]; norm_num

/-- Witness for C6: at attempt 2, base 50, max 1000, u = 1/2 the delay
    is at least 1 and at most max 1 (1.2 * 1000). -/
theorem c6_witness :
    1 ≤ calculate_delay 2 50 1000 (1 / 2) ∧
    (calculate_delay 2 50 1000 (1 / 2) : ℚ) ≤ max 1 ((6 / 5) * ((1000 : Int) : ℚ)) := by
  have h := c6_backoff_delay_bounds 2 50 1000 (1 / 2) (by norm_num) (by norm_num)
    (by norm_num) (by norm_num) (by norm_num)
  exact ⟨h.1, h.2.1⟩

/-- C7: for every validated invocation, in both variants the number of
    backoff sleeps is at most attempts - 1 and at most maxTries - 1
    (no sleep before the first attempt and none after the final
    allowed attempt), and with maxTries = 1 the engine performs
    exactly one attempt and never sleeps. -/
theorem c7_no_sleep_outside_attempts (cfg : Config) (args : Args)
    (exec : Int → AttemptResult) (jit : Int → ℚ) (stmt : Stmt)
    (hsql : args.sql = some stmt) (hn : stmt.nStatements = 1)
    (ht : stmt.isTransactionControl = false)
    (hmt : 1 ≤ resolved_max_tries cfg args)
    (hb : 0 ≤ resolved_base_delay cfg args)
    (hbm : resolved_base_delay cfg args ≤ resolved_max_delay cfg args) :
    (resolved_max_tries cfg args = 1 →
      (pg_retry_retry_v1 cfg args exec jit).attempts = 1 ∧
      (pg_retry_retry_v1 cfg args exec jit).sleeps = [] ∧
      (pg_retry_retry_v2 cfg args exec jit).attempts = 1 ∧
      (pg_retry_retry_v2 cfg args exec jit).sleeps = []) ∧
    ((pg_retry_retry_v1 cfg args exec jit).sleeps.length : Int) ≤
      (pg_retry_retry_v1 cfg args exec jit).attempts - 1 ∧
    ((pg_retry_retry_v1 cfg args exec jit).sleeps.length : Int) ≤
      resolved_max_tries cfg args - 1 ∧
    ((pg_retry_retry_v2 cfg args exec jit).sleeps.length : Int) ≤
      (pg_retry_retry_v2 cfg args exec jit).attempts - 1 ∧
    ((pg_retry_retry_v2 cfg args exec jit).sleeps.length : Int) ≤
      resolved_max_tries cfg args - 1 := by
  rw [run_v1_eq_loop cfg args exec jit stmt hsql hn ht hmt hb hbm,
    run_v2_eq_loop cfg args exec jit stmt hsql hn ht hmt hb hbm]
  have hfuel : 1 ≤ (resolved_max_tries cfg args).toNat := by omega
  have hinv : (1 : Int) + ((resolved_max_tries cfg args).toNat : Int) =
      resolved_max_tries cfg args + 1 := by omega
  obtain ⟨a1, a2, a3⟩ := loop_v1_bounds (resolved_sqlstates cfg args)
    (resolved_base_delay cfg args) (resolved_max_delay cfg args)
    (resolved_max_tries cfg args) exec jit (resolved_max_tries cfg args).toNat
    1 none hfuel hinv
  obtain ⟨b1, b2, b3⟩ := loop_v2_bounds (resolved_sqlstates cfg args)
    (resolved_base_delay cfg args) (resolved_max_delay cfg args)
    (resolved_max_tries cfg args) exec jit (resolved_max_tries cfg args).toNat
    1 hfuel hinv
  simp only [finish_v1, finish_v2]
  refine ⟨?_, by omega, by omega, by omega, by omega⟩
  intro hone
  refine ⟨by omega, ?_, by omega, ?_⟩
  · have : (loop_v1 (resolved_sqlstates cfg args) (resolved_base_delay cfg args)
        (resolved_max_delay cfg args) (resolved_max_tries cfg args) exec jit
        (resolved_max_tries cfg args).toNat 1 none).sleeps.length = 0 := by omega
    exact List.length_eq_zero.mp this
  · have : (loop_v2 (resolved_sqlstates cfg args) (resolved_base_delay cfg args)
        (resolved_max_delay cfg args) (resolved_max_tries cfg args) exec jit
        (resolved_max_tries cfg args).toNat 1).sleeps.length = 0 := by omega
    exact List.length_eq_zero.mp this

/-- Witness for C7: with max_tries 1 and a failing first attempt, both
    variants perform exactly one attempt and never sleep. -/
theorem c7_witness :
    (pg_retry_retry_v1 defaultConfig args_mt1 exec_all_40001 jit0).attempts = 1 ∧
    (pg_retry_retry_v1 defaultConfig args_mt1 exec_all_40001 jit0).sleeps = [] ∧
    (pg_retry_retry_v2 defaultConfig args_mt1 exec_all_40001 jit0).attempts = 1 ∧
    (pg_retry_retry_v2 defaultConfig args_mt1 exec_all_40001 jit0).sleeps = [] :=
  (c7_no_sleep_outside_attempts defaultConfig args_mt1 exec_all_40001 jit0 okStmt
    rfl rfl rfl (by decide) (by decide) (by decide)).1 rfl

/-- C8: classification is an exact, case-sensitive membership test:
    is_retryable_sqlstate returns true exactly when some non-null
    entry of the retryable set equals the code, and a failure carrying
    no structured error code is never classified retryable. -/
theorem c8_classification_exact_membership (code : String)
    (states : List (Option String)) (max_tries attempt : Int) (msg : String) :
    (is_retryable_sqlstate code states = true ↔ some code ∈ states) ∧
    error_is_retryable states ⟨none, msg⟩ = false ∧
    (classify states max_tries attempt ⟨none, msg⟩).1 = false := by
  refine ⟨?_, rfl, rfl⟩
  induction states with
  | nil => simp [is_retryable_sqlstate]
  | cons head tail ih =>
    cases head with
    | none => simpa [is_retryable_sqlstate] using ih
    | some s =>
      by_cases h : code = s
      · subst h
        simp [is_retryable_sqlstate]
      · simp only [is_retryable_sqlstate, if_neg h, List.mem_cons, Option.some.injEq]
        rw [ih]
        simp [h]

/-- Helper for C9: a v1 loop trace whose outcome is not an empty
    exhaustion never finishes in the internal error. -/
lemma finish_v1_result_ne_internal (t : LoopTraceV1)
    (h : t.outcome ≠ .exhausted none) :
    (finish_v1 t).result ≠ .err .internalError := by
  cases ho : t.outcome with
  | success rows => simp [finish_v1, ho]
  | exhausted last =>
    cases last with
    | none => exact absurd ho h
    | some e => simp [finish_v1, ho]

/-- Helper for C9: a v2 loop trace that did not fall through never
    finishes in the internal error. -/
lemma finish_v2_result_ne_internal (t : LoopTraceV2)
    (h : t.outcome ≠ .fellThrough) :
    (finish_v2 t).result ≠ .err .internalError := by
  cases ho : t.outcome with
  | success rows => simp [finish_v2, ho]
  | thrown e => simp [finish_v2, ho]
  | fellThrough => exact absurd ho h

/-- Helper for C9: validate_sql only ever reports a syntax error or an
    unsupported statement. -/
lemma validate_sql_cases (stmt : Stmt) :
    validate_sql stmt = none ∨ validate_sql stmt = some .syntaxError ∨
      validate_sql stmt = some .unsupportedStatement := by
  unfold validate_sql
  split_ifs <;> simp

/-- C9: the defensive InternalError terminal case is unreachable: for
    every invocation of either variant, the result is never the
    internal unexpected-error-state / all-retry-attempts-failed error. -/
theorem c9_internal_error_unreachable (cfg : Config) (args : Args)
    (exec : Int → AttemptResult) (jit : Int → ℚ) :
    (pg_retry_retry_v1 cfg args exec jit).result ≠ .err .internalError ∧
    (pg_retry_retry_v2 cfg args exec jit).result ≠ .err .internalError := by
  cases hsql : args.sql with
  | none =>
    constructor <;> simp [pg_retry_retry_v1, pg_retry_retry_v2, hsql]
  | some stmt =>
    constructor
    · simp only [pg_retry_retry_v1, hsql]
      by_cases h1 : resolved_max_tries cfg args < 1
      · rw [if_pos h1]; simp
      · rw [if_neg h1]
        by_cases h2 : resolved_base_delay cfg args < 0 ∨ resolved_max_delay cfg args < 0
        · rw [if_pos h2]; simp
        · rw [if_neg h2]
          by_cases h3 : resolved_base_delay cfg args > resolved_max_delay cfg args
          · rw [if_pos h3]; simp
          · rw [if_neg h3]
            rcases validate_sql_cases stmt with hv | hv | hv <;> rw [hv]
            · exact finish_v1_result_ne_internal _
                (loop_v1_no_internal (resolved_sqlstates cfg args)
                  (resolved_base_delay cfg args) (resolved_max_delay cfg args)
                  (resolved_max_tries cfg args) exec jit
                  (resolved_max_tries cfg args).toNat 1 none (by omega) (by omega))
            · simp
            · simp
    · simp only [pg_retry_retry_v2, hsql]
      by_cases h1 : resolved_max_tries cfg args < 1
      · rw [if_pos h1]; simp
      · rw [if_neg h1]
        by_cases h2 : resolved_base_delay cfg args < 0 ∨ resolved_max_delay cfg args < 0
        · rw [if_pos h2]; simp
        · rw [if_neg h2]
          by_cases h3 : resolved_base_delay cfg args > resolved_max_delay cfg args
          · rw [if_pos h3]; simp
          · rw [if_neg h3]
            rcases validate_sql_cases stmt with hv | hv | hv <;> rw [hv]
            · exact finish_v2_result_ne_internal _
                (loop_v2_no_fellthrough (resolved_sqlstates cfg args)
                  (resolved_base_delay cfg args) (resolved_max_delay cfg args)
                  (resolved_max_tries cfg args) exec jit
                  (resolved_max_tries cfg args).toNat 1 (by omega) (by omega))
            · simp
            · simp

/-- C10 counterexample: a non-retryable failure on attempt 1 followed
    by a successful attempt 2 makes the variants observably diverge:
    v1 (src/pg_retry.c) keeps looping and returns 7 rows after 2
    attempts, while v2 (src/src/pg_retry.c) propagates the failure
    after 1 attempt. -/
theorem c10_counterexample :
    (pg_retry_retry_v1 defaultConfig args_mt2 exec_fail_then_ok jit0).result = .ok 7 ∧
    (pg_retry_retry_v2 defaultConfig args_mt2 exec_fail_then_ok jit0).result =
      .err (.execError ⟨some "22012", "division by zero"⟩) ∧
    (pg_retry_retry_v1 defaultConfig args_mt2 exec_fail_then_ok jit0).attempts = 2 ∧
    (pg_retry_retry_v2 defaultConfig args_mt2 exec_fail_then_ok jit0).attempts = 1 ∧
    pg_retry_retry_v1 defaultConfig args_mt2 exec_fail_then_ok jit0 ≠
      pg_retry_retry_v2 defaultConfig args_mt2 exec_fail_then_ok jit0 := by
  decide

/-- C10 (amended): the two variants are observably equivalent — same
    attempts, warnings, sleeps and result — for every validated
    invocation and every per-attempt outcome sequence in which every
    failing attempt fails with a retryable error code (they diverge
    only when a non-retryable failure occurs before the last allowed
    attempt). -/
theorem c10_variants_equivalent_on_retryable_failures (cfg : Config) (args : Args)
    (exec : Int → AttemptResult) (jit : Int → ℚ) (stmt : Stmt)
    (hsql : args.sql = some stmt) (hn : stmt.nStatements = 1)
    (ht : stmt.isTransactionControl = false)
    (hmt : 1 ≤ resolved_max_tries cfg args)
    (hb : 0 ≤ resolved_base_delay cfg args)
    (hbm : resolved_base_delay cfg args ≤ resolved_max_delay cfg args)
    (hall : ∀ n e, 1 ≤ n → n ≤ resolved_max_tries cfg args → exec n = .err e →
      error_is_retryable (resolved_sqlstates cfg args) e = true) :
    pg_retry_retry_v1 cfg args exec jit = pg_retry_retry_v2 cfg args exec jit := by
  rw [run_v1_eq_loop cfg args exec jit stmt hsql hn ht hmt hb hbm,
    run_v2_eq_loop cfg args exec jit stmt hsql hn ht hmt hb hbm]
  exact loop_equiv_all_retryable (resolved_sqlstates cfg args)
    (resolved_base_delay cfg args) (resolved_max_delay cfg args)
    (resolved_max_tries cfg args) exec jit (resolved_max_tries cfg args).toNat
    1 none (by omega) (by omega) hall

/-- Witness for C10: with max_tries 3 and every attempt failing with
    SQLSTATE 40001, the two variants produce identical traces. -/
theorem c10_witness :
    pg_retry_retry_v1 defaultConfig args_mt3 exec_all_40001 jit0 =
      pg_retry_retry_v2 defaultConfig args_mt3 exec_all_40001 jit0 :=
  c10_variants_equivalent_on_retryable_failures defaultConfig args_mt3
    exec_all_40001 jit0 okStmt rfl rfl rfl (by decide) (by decide) (by decide)
    (fun n e h1 h2 he => by injection he with h; rw [← h]; decide)
